import Mathlib

/-!
Verification of the natural-language specification of the
`legal_citation_parser` repository (file `legal_citation_parser/utils.py`)
against a shallow embedding of its code in Lean 4.

The embedding mirrors the four functions of `utils.py`:

* `check_url` (lines 13-32): a GET request with a bounded timeout; the url is
  returned on status code 200, `None` (here `none`) on any other status code or
  on any caught transport exception.
* `canlii_api_call` (lines 35-109): credential resolution (lines 58-65,
  embedded as `resolveCredential`) followed by up to five facet requests, each
  one guarded by its own boolean flag, whose JSON responses are merged into one
  Python dict (embedded as an insertion-ordered association list).  The HTTP
  status code of a facet response is never examined by the code; a malformed
  body makes `response.json()` raise, and a missing key in a decoded body makes
  the subscript lookup raise `KeyError`.
* `create_citation_database` (lines 112-157): three `CREATE TABLE IF NOT
  EXISTS` statements.  The store is embedded as three optional tables: `none`
  means the table does not exist, `some rows` is an existing table with its
  rows in insertion order.  The `results` table carries `uid TEXT PRIMARY KEY`;
  the `keywords` and `categories` tables declare no uniqueness constraint at
  all (only an advisory FOREIGN KEY, which sqlite does not enforce by default).
* `insert_data` (lines 161-205): builds the sixteen-element parameter tuple
  (raising `KeyError` on a missing key), runs either an
  `INSERT ... ON CONFLICT(uid) DO UPDATE` (full replace of the fifteen non-key
  columns) or an `INSERT OR IGNORE` against the primary-key table, then splits
  the optional `keywords` / `categories` strings on `" — "` and inserts the
  pairs with `INSERT OR IGNORE`.  Because the child tables declare no
  constraint, `OR IGNORE` never has a violation to ignore there and every such
  insert appends a row.  The function opens its own sqlite connection and only
  the normal completion path reaches `conn.commit()` / `conn.close()`; there is
  no `try`/`finally`, so an exception path never closes the connection (and the
  uncommitted statements are rolled back, leaving the store unchanged).
-/

namespace LegalCitationParser

/-! ## Reachability checker: `check_url` -/

/-- Transport-level failures caught by `except requests.RequestException`. -/
inductive RequestException where
  | timeout
  | dnsFailure
  | connectionRefused
  | tlsError
deriving DecidableEq, Repr

/-- Outcome of the single `requests.get(url, timeout=5)` call: either a
response carrying a status code, or a caught transport exception. -/
inductive FetchOutcome where
  | response (statusCode : Nat)
  | failure (e : RequestException)
deriving DecidableEq, Repr

/-- Embedding of `check_url` (utils.py lines 13-32): the url is returned when
`response.status_code == 200`; every other status code and every caught
transport exception yields Python `None`, embedded as `none`. -/
def check_url (url : String) (outcome : FetchOutcome) : Option String :=
  match outcome with
  | FetchOutcome.response code => if code = 200 then some url else none
  | FetchOutcome.failure _ => none

/-- Modelled from the spec: the spec's phrase "a success status code" for an
HTTP response, read as the standard HTTP success class 2xx.  This definition
follows the spec's words, not the code, and exists only to be compared with
the code's behaviour (`check_url` tests for the single code 200). -/
def successStatus_spec (code : Nat) : Bool :=
  200 ≤ code && code < 300

/-! ## Credential resolution inside `canlii_api_call` (lines 58-65) -/

/-- Result of the credential-resolution prologue: either an API key to use, or
process termination (`sys.exit()` called with no argument exits the process
with status 0). -/
inductive CredOutcome where
  | key (k : String)
  | exited (code : Nat)
deriving DecidableEq, Repr

/-- Embedding of utils.py lines 58-65.  `envKey` is the value of
`os.getenv("CANLII_API_KEY")` after `load_dotenv()` (`none` when the variable
is absent); `console` is what `input()` would return when prompted.  The
returned boolean records whether the interactive prompt was shown.
`sys.exit()` is called with no argument, which terminates the process with
exit status 0. -/
def resolveCredential (envKey : Option String) (console : String) :
    CredOutcome × Bool :=
  match envKey with
  | some k => (CredOutcome.key k, false)
  | none =>
    if console = "" then (CredOutcome.exited 0, true)
    else (CredOutcome.key console, true)

/-! ## Facet aggregation inside `canlii_api_call` (lines 67-109) -/

/-- The five distinct remote endpoints the facet blocks can GET.  Each facet
block targets its own URL pattern: `caseBrowse/{lang}/{db}/{case}/`,
`caseCitator/.../citedCases`, `caseCitator/.../citingCases`,
`legislationBrowse/{lang}/{db}/{leg}/` and the database listing
`caseBrowse/{lang}/`. -/
inductive Endpoint where
  | caseBrowse
  | citedCases
  | citingCases
  | legislationBrowse
  | databaseList
deriving DecidableEq, Repr

/-- A decoded JSON object, embedded as an association list from field names to
string values (all fields the code extracts are scalar; facets stored verbatim
keep the whole object). -/
abbrev Json := List (String × String)

/-- A value stored in the `metadata_api_info` dict: either an extracted string
field or a whole JSON body stored verbatim. -/
inductive Val where
  | s (v : String)
  | j (v : Json)
deriving DecidableEq, Repr

/-- An HTTP response from the remote service: its status code and its body.
`body = none` embeds a body that is not well-formed JSON, on which
`response.json()` raises. -/
structure Response where
  status : Nat
  body : Option Json
deriving DecidableEq, Repr

/-- The remote service, as the five responses it would give to the five
endpoints. -/
structure Service where
  decisionResp : Response
  citedResp : Response
  citingResp : Response
  legislationResp : Response
  databaseResp : Response
deriving DecidableEq, Repr

/-- The five boolean facet flags of `canlii_api_call`, in source order. -/
structure ApiFlags where
  decision_metadata : Bool
  legislation_metadata : Bool
  cases_cited : Bool
  cases_citing : Bool
  canlii_database : Bool
deriving DecidableEq, Repr

/-- Errors that propagate uncaught out of the facet blocks: a
`json.JSONDecodeError` from `response.json()` on a malformed body, or a
`KeyError` from subscripting a decoded body that lacks a required field. -/
inductive ApiErr where
  | jsonDecode (e : Endpoint)
  | keyError (k : String)
deriving DecidableEq, Repr

/-- Python dict lookup (`d[k]` as an `Option`): first matching key wins. -/
def dictGet (d : List (String × Val)) (k : String) : Option Val :=
  match d with
  | [] => none
  | (k₀, v₀) :: rest => if k₀ = k then some v₀ else dictGet rest k

/-- Python dict assignment `d[k] = v`: update the existing entry in place if
the key is present, otherwise append the new entry at the end. -/
def dictSet (d : List (String × Val)) (k : String) (v : Val) :
    List (String × Val) :=
  match d with
  | [] => [(k, v)]
  | (k₀, v₀) :: rest =>
    if k₀ = k then (k, v) :: rest else (k₀, v₀) :: dictSet rest k v

/-- Lookup of a field in a decoded JSON object (`body[k]` as an `Option`). -/
def jLookup (j : Json) (k : String) : Option String :=
  match j with
  | [] => none
  | (k₀, v₀) :: rest => if k₀ = k then some v₀ else jLookup rest k

/-- The state threaded through the facet blocks: the list of endpoints GET so
far (in request order) and the `metadata_api_info` dict built so far. -/
structure CallState where
  reqs : List Endpoint
  dict : List (String × Val)
deriving DecidableEq, Repr

/-- Embedding of the `decision_metadata` block (lines 69-78): decode the
response of the case-browse endpoint and copy six fields into the dict,
raising `KeyError` at the first missing field. -/
def decisionStep (flag : Bool) (svc : Service) (st : CallState) :
    Except ApiErr CallState :=
  if flag then
    match svc.decisionResp.body with
    | none => Except.error (ApiErr.jsonDecode Endpoint.caseBrowse)
    | some cm =>
    match jLookup cm "url" with
    | none => Except.error (ApiErr.keyError "url")
    | some u =>
    match jLookup cm "language" with
    | none => Except.error (ApiErr.keyError "language")
    | some lg =>
    match jLookup cm "docketNumber" with
    | none => Except.error (ApiErr.keyError "docketNumber")
    | some dn =>
    match jLookup cm "decisionDate" with
    | none => Except.error (ApiErr.keyError "decisionDate")
    | some dd =>
    match jLookup cm "keywords" with
    | none => Except.error (ApiErr.keyError "keywords")
    | some kw =>
    match jLookup cm "topics" with
    | none => Except.error (ApiErr.keyError "topics")
    | some tp =>
      Except.ok ⟨st.reqs ++ [Endpoint.caseBrowse],
        dictSet (dictSet (dictSet (dictSet (dictSet (dictSet st.dict
          "short_url" (Val.s u)) "language" (Val.s lg))
          "docket_number" (Val.s dn)) "decision_date" (Val.s dd))
          "keywords" (Val.s kw)) "categories" (Val.s tp)⟩
  else Except.ok st

/-- Embedding of the `cases_cited` block (lines 80-84): the decoded body is
stored verbatim under `"cited_cases"`; the status code is never examined. -/
def citedStep (flag : Bool) (svc : Service) (st : CallState) :
    Except ApiErr CallState :=
  if flag then
    match svc.citedResp.body with
    | none => Except.error (ApiErr.jsonDecode Endpoint.citedCases)
    | some j =>
      Except.ok ⟨st.reqs ++ [Endpoint.citedCases],
        dictSet st.dict "cited_cases" (Val.j j)⟩
  else Except.ok st

/-- Embedding of the `cases_citing` block (lines 86-90). -/
def citingStep (flag : Bool) (svc : Service) (st : CallState) :
    Except ApiErr CallState :=
  if flag then
    match svc.citingResp.body with
    | none => Except.error (ApiErr.jsonDecode Endpoint.citingCases)
    | some j =>
      Except.ok ⟨st.reqs ++ [Endpoint.citingCases],
        dictSet st.dict "citing_cases" (Val.j j)⟩
  else Except.ok st

/-- Embedding of the `legislation_metadata` block (lines 93-101): decode the
legislation-browse response and copy five fields into the dict. -/
def legislationStep (flag : Bool) (svc : Service) (st : CallState) :
    Except ApiErr CallState :=
  if flag then
    match svc.legislationResp.body with
    | none => Except.error (ApiErr.jsonDecode Endpoint.legislationBrowse)
    | some lm =>
    match jLookup lm "databaseId" with
    | none => Except.error (ApiErr.keyError "databaseId")
    | some di =>
    match jLookup lm "legislationId" with
    | none => Except.error (ApiErr.keyError "legislationId")
    | some li =>
    match jLookup lm "title" with
    | none => Except.error (ApiErr.keyError "title")
    | some ti =>
    match jLookup lm "type" with
    | none => Except.error (ApiErr.keyError "type")
    | some ty =>
    match jLookup lm "citation" with
    | none => Except.error (ApiErr.keyError "citation")
    | some ci =>
      Except.ok ⟨st.reqs ++ [Endpoint.legislationBrowse],
        dictSet (dictSet (dictSet (dictSet (dictSet st.dict
          "database_id" (Val.s di)) "legislation_id" (Val.s li))
          "title" (Val.s ti)) "type" (Val.s ty)) "citation" (Val.s ci)⟩
  else Except.ok st

/-- Embedding of the `canlii_database` block (lines 103-107): the decoded body
of the database listing is stored verbatim under `"database"`. -/
def databaseStep (flag : Bool) (svc : Service) (st : CallState) :
    Except ApiErr CallState :=
  if flag then
    match svc.databaseResp.body with
    | none => Except.error (ApiErr.jsonDecode Endpoint.databaseList)
    | some j =>
      Except.ok ⟨st.reqs ++ [Endpoint.databaseList],
        dictSet st.dict "database" (Val.j j)⟩
  else Except.ok st

/-- The five facet blocks of `canlii_api_call` run in source order, starting
from the empty `metadata_api_info = {}`; the first uncaught exception aborts
the call. -/
def aggregateFacets (flags : ApiFlags) (svc : Service) :
    Except ApiErr CallState :=
  match decisionStep flags.decision_metadata svc ⟨[], []⟩ with
  | Except.error e => Except.error e
  | Except.ok st1 =>
  match citedStep flags.cases_cited svc st1 with
  | Except.error e => Except.error e
  | Except.ok st2 =>
  match citingStep flags.cases_citing svc st2 with
  | Except.error e => Except.error e
  | Except.ok st3 =>
  match legislationStep flags.legislation_metadata svc st3 with
  | Except.error e => Except.error e
  | Except.ok st4 =>
  match databaseStep flags.canlii_database svc st4 with
  | Except.error e => Except.error e
  | Except.ok st5 => Except.ok st5

/-- Observable outcome of one `canlii_api_call` invocation: process
termination from the credential prologue, an uncaught exception from a facet
block, or the returned `metadata_api_info` dict together with the requests
that were issued. -/
inductive CallOutcome where
  | exited (code : Nat)
  | failed (e : ApiErr)
  | ok (st : CallState)
deriving DecidableEq, Repr

/-- Embedding of `canlii_api_call` (utils.py lines 35-109): resolve the
credential, then run the facet blocks. -/
def canlii_api_call (envKey : Option String) (console : String)
    (flags : ApiFlags) (svc : Service) : CallOutcome :=
  match resolveCredential envKey console with
  | (CredOutcome.exited c, _) => CallOutcome.exited c
  | (CredOutcome.key _, _) =>
    match aggregateFacets flags svc with
    | Except.error e => CallOutcome.failed e
    | Except.ok st => CallOutcome.ok st

/-! ## The sqlite store: `create_citation_database` (lines 112-157) -/

/-- A row of the `results` table: `uid TEXT PRIMARY KEY` plus fifteen scalar
TEXT columns, in the column order of the CREATE TABLE statement. -/
structure ResultRow where
  uid : String
  style_of_cause : String
  atomic_citation : String
  citation_type : String
  scr_citation : String
  year : String
  court : String
  decision_number : String
  jurisdiction : String
  court_name : String
  court_level : String
  long_url : String
  short_url : String
  language : String
  docket_number : String
  decision_date : String
deriving DecidableEq, Repr

/-- The state of `results.db`.  Each table is `none` while it does not exist
and `some rows` (rows in insertion order) once created.  Only `results`
declares a constraint (`uid` is its PRIMARY KEY); `keywords` and `categories`
declare no uniqueness constraint, and their FOREIGN KEY is not enforced by
sqlite's default configuration. -/
structure Store where
  results : Option (List ResultRow)
  keywords : Option (List (String × String))
  categories : Option (List (String × String))
deriving DecidableEq, Repr

/-- Embedding of `create_citation_database` (lines 112-157): three
`CREATE TABLE IF NOT EXISTS` statements — a missing table becomes an empty
one, an existing table is left exactly as it is; the statement never fails. -/
def create_citation_database (s : Store) : Store :=
  ⟨some (s.results.getD []), some (s.keywords.getD []),
   some (s.categories.getD [])⟩

/-! ## `insert_data` (lines 161-205) -/

/-- Errors raised inside `insert_data`: a Python `KeyError` from `data[k]` on
a missing key, or a sqlite `OperationalError` from executing a statement
against a table that does not exist. -/
inductive SqlError where
  | keyError (k : String)
  | noSuchTable (t : String)
deriving DecidableEq, Repr

/-- The `data` dictionary handed to `insert_data`, embedded as an
insertion-ordered association list of string values. -/
abbrev Data := List (String × String)

/-- Python dict lookup `data[k]` as an `Option` (first matching key wins). -/
def dLookup (d : Data) (k : String) : Option String :=
  match d with
  | [] => none
  | (k₀, v₀) :: rest => if k₀ = k then some v₀ else dLookup rest k

/-- `data[k]`, raising `KeyError` when the key is absent. -/
def getKey (d : Data) (k : String) : Except SqlError String :=
  match dLookup d k with
  | some v => Except.ok v
  | none => Except.error (SqlError.keyError k)

/-- `data.get(k)` followed by Python truthiness: `if data.get(k):` runs its
body exactly when the key is present with a non-empty string value. -/
def getTruthy (d : Data) (k : String) : Option String :=
  match dLookup d k with
  | some v => if v = "" then none else some v
  | none => none

/-- The sixteen keys subscripted when building the parameter tuple of the
`results` INSERT, in evaluation order (lines 179-181 and 189-191). -/
def requiredKeys : List String :=
  ["uid", "style_of_cause", "atomic_citation", "citation_type",
   "scr_citation", "year", "court", "decision_number", "jurisdiction",
   "court_name", "court_level", "long_url", "short_url", "language",
   "docket_number", "decision_date"]

/-- Building the sixteen-element parameter tuple
`(data['uid'], data['style_of_cause'], ..., data['decision_date'])`: the
lookups happen left to right and the first missing key raises `KeyError`. -/
def buildRow (d : Data) : Except SqlError ResultRow :=
  match getKey d "uid" with
  | Except.error e => Except.error e
  | Except.ok uid =>
  match getKey d "style_of_cause" with
  | Except.error e => Except.error e
  | Except.ok soc =>
  match getKey d "atomic_citation" with
  | Except.error e => Except.error e
  | Except.ok ac =>
  match getKey d "citation_type" with
  | Except.error e => Except.error e
  | Except.ok ct =>
  match getKey d "scr_citation" with
  | Except.error e => Except.error e
  | Except.ok scr =>
  match getKey d "year" with
  | Except.error e => Except.error e
  | Except.ok yr =>
  match getKey d "court" with
  | Except.error e => Except.error e
  | Except.ok crt =>
  match getKey d "decision_number" with
  | Except.error e => Except.error e
  | Except.ok dn =>
  match getKey d "jurisdiction" with
  | Except.error e => Except.error e
  | Except.ok jur =>
  match getKey d "court_name" with
  | Except.error e => Except.error e
  | Except.ok cn =>
  match getKey d "court_level" with
  | Except.error e => Except.error e
  | Except.ok cl =>
  match getKey d "long_url" with
  | Except.error e => Except.error e
  | Except.ok lu =>
  match getKey d "short_url" with
  | Except.error e => Except.error e
  | Except.ok su =>
  match getKey d "language" with
  | Except.error e => Except.error e
  | Except.ok lg =>
  match getKey d "docket_number" with
  | Except.error e => Except.error e
  | Except.ok dk =>
  match getKey d "decision_date" with
  | Except.error e => Except.error e
  | Except.ok dd =>
    Except.ok ⟨uid, soc, ac, ct, scr, yr, crt, dn, jur, cn, cl, lu, su, lg,
               dk, dd⟩

/-- The `ON CONFLICT(uid) DO UPDATE` upsert (lines 167-181): if a row with the
same `uid` exists it is replaced wholesale by the incoming values (every
non-key column is overwritten), otherwise the new row is appended. -/
def upsertRow (rs : List ResultRow) (row : ResultRow) : List ResultRow :=
  if rs.any (fun r => r.uid = row.uid) then
    rs.map (fun r => if r.uid = row.uid then row else r)
  else rs ++ [row]

/-- The `INSERT OR IGNORE` against the primary-key table `results`
(lines 184-191): a conflicting `uid` makes the whole insert a no-op. -/
def insertOrIgnoreRow (rs : List ResultRow) (row : ResultRow) :
    List ResultRow :=
  if rs.any (fun r => r.uid = row.uid) then rs else rs ++ [row]

/-- Python `s.split(' — ')` specialised to the code's fixed three-character
separator (space, em-dash, space): split at each leftmost occurrence. -/
def splitEmDashAux (acc : List Char) : List Char → List (List Char)
  | ' ' :: '—' :: ' ' :: rest => acc.reverse :: splitEmDashAux [] rest
  | c :: rest => splitEmDashAux (c :: acc) rest
  | [] => [acc.reverse]

/-- `str.split(' — ')` on a Lean string. -/
def pySplit (s : String) : List String :=
  (splitEmDashAux [] s.data).map (fun cs => String.mk cs)

/-- One keyword/category block (lines 194-197 and 199-202): when the value is
truthy, split it and run one `INSERT OR IGNORE` per token against the child
table.  The child tables declare no uniqueness constraint, so `OR IGNORE`
never has a constraint violation to ignore and every insert appends its row;
a missing table makes the first execute raise. -/
def insertChild (tbl : Option (List (String × String))) (tname : String)
    (uid : String) : Option String →
    Except SqlError (Option (List (String × String)))
  | none => Except.ok tbl
  | some str =>
    match tbl with
    | none => Except.error (SqlError.noSuchTable tname)
    | some rows =>
      Except.ok (some (rows ++ (pySplit str).map (fun t => (uid, t))))

instance exceptDecEq {ε α : Type} [DecidableEq ε] [DecidableEq α] :
    DecidableEq (Except ε α) := fun a b =>
  match a, b with
  | Except.error e₁, Except.error e₂ =>
    if h : e₁ = e₂ then Decidable.isTrue (congrArg Except.error h)
    else Decidable.isFalse (fun hc => h (Except.error.inj hc))
  | Except.ok v₁, Except.ok v₂ =>
    if h : v₁ = v₂ then Decidable.isTrue (congrArg Except.ok h)
    else Decidable.isFalse (fun hc => h (Except.ok.inj hc))
  | Except.error _, Except.ok _ => Decidable.isFalse Except.noConfusion
  | Except.ok _, Except.error _ => Decidable.isFalse Except.noConfusion

/-- The observable outcome of one `insert_data` call: the new store on the
committed path or the raised error (on which nothing was committed, so the
store is unchanged), together with whether `conn.close()` was reached.  The
function has no `try`/`finally`, so only the normal completion path closes
the connection it opened. -/
structure InsertResult where
  result : Except SqlError Store
  connClosed : Bool
deriving DecidableEq, Repr

/-- Embedding of `insert_data` (lines 161-205).  Order of effects as in the
source: the sixteen-element parameter tuple is built first (first missing key
raises `KeyError`), then the `results` statement executes (upsert under
`update_existing=True`, insert-or-ignore otherwise), then the keywords block,
then the categories block, then `conn.commit()` and `conn.close()`.  An error
anywhere leaves the store unchanged (nothing was committed) and skips the
close. -/
def insert_data (data : Data) (update_existing : Bool) (s : Store) :
    InsertResult :=
  match buildRow data with
  | Except.error e => ⟨Except.error e, false⟩
  | Except.ok row =>
  match s.results with
  | none => ⟨Except.error (SqlError.noSuchTable "results"), false⟩
  | some rs =>
  match insertChild s.keywords "keywords" row.uid (getTruthy data "keywords") with
  | Except.error e => ⟨Except.error e, false⟩
  | Except.ok ks₁ =>
  match insertChild s.categories "categories" row.uid (getTruthy data "categories") with
  | Except.error e => ⟨Except.error e, false⟩
  | Except.ok cs₁ =>
    ⟨Except.ok ⟨some (if update_existing then upsertRow rs row
                      else insertOrIgnoreRow rs row), ks₁, cs₁⟩, true⟩

/-! ## Concrete sample values used by witnesses and counterexamples -/

/-- The store produced by running `create_citation_database` on a fresh
`results.db`: three empty tables. -/
def initializedStore : Store := create_citation_database ⟨none, none, none⟩

/-- A fully populated `data` dictionary, with keyword and category strings
using the `" — "` delimiter. -/
def sampleData : Data :=
  [("uid", "case1"), ("style_of_cause", "A v B"),
   ("atomic_citation", "2021 ONCA 123"), ("citation_type", "neutral"),
   ("scr_citation", ""), ("year", "2021"), ("court", "onca"),
   ("decision_number", "123"), ("jurisdiction", "on"),
   ("court_name", "Court of Appeal for Ontario"),
   ("court_level", "appellate"), ("long_url", "https://l"),
   ("short_url", "https://s"), ("language", "en"), ("docket_number", "C1"),
   ("decision_date", "2021-03-01"),
   ("keywords", "fraud — negligence — appeal"),
   ("categories", "criminal — evidence")]

/-- The `results` row corresponding to `sampleData`. -/
def sampleRow : ResultRow :=
  ⟨"case1", "A v B", "2021 ONCA 123", "neutral", "", "2021", "onca", "123",
   "on", "Court of Appeal for Ontario", "appellate", "https://l", "https://s",
   "en", "C1", "2021-03-01"⟩

/-- A second record for the same `uid` with different scalar values and no
keyword or category strings (only the sixteen scalar keys). -/
def sampleDataB : Data :=
  [("uid", "case1"), ("style_of_cause", "C v D"),
   ("atomic_citation", "2022 SCC 9"), ("citation_type", "neutral"),
   ("scr_citation", "[2022] 1 SCR 99"), ("year", "2022"), ("court", "scc"),
   ("decision_number", "9"), ("jurisdiction", "ca"),
   ("court_name", "Supreme Court of Canada"), ("court_level", "supreme"),
   ("long_url", "https://l2"), ("short_url", "https://s2"),
   ("language", "fr"), ("docket_number", "D2"),
   ("decision_date", "2022-05-05")]

/-- The `results` row corresponding to `sampleDataB`. -/
def sampleRowB : ResultRow :=
  ⟨"case1", "C v D", "2022 SCC 9", "neutral", "[2022] 1 SCR 99", "2022",
   "scc", "9", "ca", "Supreme Court of Canada", "supreme", "https://l2",
   "https://s2", "fr", "D2", "2022-05-05"⟩

/-- Facet flags requesting only the decision metadata. -/
def sampleFlags : ApiFlags := ⟨true, false, false, false, false⟩

/-- A remote service answering the case-browse endpoint with a well-formed
decision body. -/
def sampleService : Service :=
  ⟨⟨200, some [("url", "https://s/x"), ("language", "en"),
      ("docketNumber", "C12345"), ("decisionDate", "2021-03-01"),
      ("keywords", "fraud — appeal"), ("topics", "criminal")]⟩,
   ⟨200, some []⟩, ⟨200, some []⟩, ⟨200, some []⟩, ⟨200, some []⟩⟩

/-- The call state `canlii_api_call` produces from `sampleFlags` and
`sampleService`. -/
def sampleCallState : CallState :=
  ⟨[Endpoint.caseBrowse],
   [("short_url", Val.s "https://s/x"), ("language", Val.s "en"),
    ("docket_number", Val.s "C12345"), ("decision_date", Val.s "2021-03-01"),
    ("keywords", Val.s "fraud — appeal"), ("categories", Val.s "criminal")]⟩

/-! ## Theorems -/

/-- C5 counterexample: the HTTP status code 201 belongs to the success class
(2xx), the GET request completes, and yet `check_url` does not return the
url — it returns the failure value (Python `None`).  This refutes the claim
that the url is returned exactly when the request completes with a success
status code: the code tests for the single status code 200. -/
theorem check_url_success_status_counterexample :
    successStatus_spec 201 = true ∧
    check_url "https://example.com" (FetchOutcome.response 201) = none := by
  decide

/-- C5 (amended): `check_url` returns the url exactly when the GET request
completes with status code exactly 200; any other status code (including the
other 2xx success codes) and any caught transport-level failure (timeout,
DNS failure, connection refused, TLS error) yield the failure value `none`
(Python `None`, the spec's "unresolvable"), and no transport failure
propagates. -/
theorem check_url_exact_200_spec (url : String) (code : Nat)
    (e : RequestException) :
    (check_url url (FetchOutcome.response code) = some url ↔ code = 200) ∧
    check_url url (FetchOutcome.failure e) = none := by
  constructor
  · constructor
    · intro h
      by_contra hc
      simp [check_url, hc] at h
    · intro h
      simp [check_url, h]
  · rfl

/-- C5 witness: a 200 response maps to the url, a 404 response and a timeout
both map to `none`. -/
theorem check_url_exact_200_spec_witness :
    check_url "https://canlii.org" (FetchOutcome.response 200) =
      some "https://canlii.org" ∧
    check_url "https://canlii.org" (FetchOutcome.response 404) = none ∧
    check_url "https://canlii.org"
      (FetchOutcome.failure RequestException.timeout) = none := by
  refine ⟨(check_url_exact_200_spec "https://canlii.org" 200
    RequestException.timeout).1.mpr rfl, ?_,
    (check_url_exact_200_spec "https://canlii.org" 404
      RequestException.timeout).2⟩
  have h := (check_url_exact_200_spec "https://canlii.org" 404
    RequestException.timeout).1
  cases hc : check_url "https://canlii.org" (FetchOutcome.response 404) with
  | none => rfl
  | some v => simp [check_url] at hc

/-- C7 counterexample: with no configured credential and an empty interactive
input, the code calls `sys.exit()` with no argument, which terminates the
process with exit status 0 — there is no non-zero/abnormal exit code, contrary
to the claim. -/
theorem resolveCredential_exit_zero_counterexample :
    (resolveCredential none "").1 = CredOutcome.exited 0 ∧
    ¬ ∃ c, c ≠ 0 ∧ (resolveCredential none "").1 = CredOutcome.exited c := by
  constructor
  · rfl
  · rintro ⟨c, hc, h⟩
    have h0 : CredOutcome.exited 0 = CredOutcome.exited c := h
    injection h0 with h1
    exact hc h1.symm

/-- C7 (amended): credential resolution in `canlii_api_call` follows this
exact order: a present environment/configuration entry is used with no
interactive prompt; when absent, the credential is read from the interactive
console; when that interactive input is the empty string the process
terminates immediately via `sys.exit()` with exit status 0 (a normal exit)
and no exception is surfaced to the caller. -/
theorem resolveCredential_resolution_order (envKey : Option String)
    (console : String) :
    (∀ k, envKey = some k →
      resolveCredential envKey console = (CredOutcome.key k, false)) ∧
    (envKey = none → console ≠ "" →
      resolveCredential envKey console = (CredOutcome.key console, true)) ∧
    (envKey = none → console = "" →
      resolveCredential envKey console = (CredOutcome.exited 0, true)) ∧
    (envKey = none → console = "" → ∀ flags svc,
      canlii_api_call envKey console flags svc = CallOutcome.exited 0) := by
  refine ⟨?_, ?_, ?_, ?_⟩
  · rintro k rfl
    rfl
  · rintro rfl h
    simp [resolveCredential, h]
  · rintro rfl rfl
    rfl
  · rintro rfl rfl flags svc
    rfl

/-- C7 witness: the environment value is used without prompting; a non-empty
console value is used after prompting; the empty console input exits with
status 0, and the whole `canlii_api_call` then reports that exit. -/
theorem resolveCredential_resolution_order_witness :
    resolveCredential (some "SECRET") "ignored" =
      (CredOutcome.key "SECRET", false) ∧
    resolveCredential none "typed" = (CredOutcome.key "typed", true) ∧
    resolveCredential none "" = (CredOutcome.exited 0, true) ∧
    canlii_api_call none "" ⟨true, true, true, true, true⟩
      ⟨⟨200, none⟩, ⟨200, none⟩, ⟨200, none⟩, ⟨200, none⟩, ⟨200, none⟩⟩ =
      CallOutcome.exited 0 :=
  ⟨(resolveCredential_resolution_order (some "SECRET") "ignored").1 "SECRET" rfl,
   (resolveCredential_resolution_order none "typed").2.1 rfl (by decide),
   (resolveCredential_resolution_order none "").2.2.1 rfl rfl,
   (resolveCredential_resolution_order none "").2.2.2 rfl rfl _ _⟩

/-- C8: `create_citation_database` can be run any number of times, also on a
store that already contains rows; it never fails (it is a total function of
the store), it leaves every existing row of all three tables exactly in
place, after any call all three tables exist, and a second run changes
nothing at all. -/
theorem create_citation_database_reinit_safe (s : Store) :
    (create_citation_database s).results.isSome = true ∧
    (create_citation_database s).keywords.isSome = true ∧
    (create_citation_database s).categories.isSome = true ∧
    (∀ rs, s.results = some rs →
      (create_citation_database s).results = some rs) ∧
    (∀ ks, s.keywords = some ks →
      (create_citation_database s).keywords = some ks) ∧
    (∀ cs, s.categories = some cs →
      (create_citation_database s).categories = some cs) ∧
    create_citation_database (create_citation_database s) =
      create_citation_database s := by
  refine ⟨rfl, rfl, rfl, ?_, ?_, ?_, ?_⟩
  · intro rs h
    simp [create_citation_database, h]
  · intro ks h
    simp [create_citation_database, h]
  · intro cs h
    simp [create_citation_database, h]
  · simp [create_citation_database]

/-- C8 witness: re-initialising a store that already holds a keyword row and a
category row keeps both rows and only creates the missing `results` table. -/
theorem create_citation_database_reinit_safe_witness :
    (create_citation_database
        ⟨none, some [("case1", "fraud")], some [("case1", "criminal")]⟩).keywords =
      some [("case1", "fraud")] ∧
    (create_citation_database
        ⟨none, some [("case1", "fraud")], some [("case1", "criminal")]⟩).categories =
      some [("case1", "criminal")] ∧
    create_citation_database (create_citation_database
        ⟨none, some [("case1", "fraud")], some [("case1", "criminal")]⟩) =
      create_citation_database
        ⟨none, some [("case1", "fraud")], some [("case1", "criminal")]⟩ :=
  ⟨(create_citation_database_reinit_safe
      ⟨none, some [("case1", "fraud")], some [("case1", "criminal")]⟩).2.2.2.2.1
      [("case1", "fraud")] rfl,
   (create_citation_database_reinit_safe
      ⟨none, some [("case1", "fraud")], some [("case1", "criminal")]⟩).2.2.2.2.2.1
      [("case1", "criminal")] rfl,
   (create_citation_database_reinit_safe
      ⟨none, some [("case1", "fraud")], some [("case1", "criminal")]⟩).2.2.2.2.2.2⟩

/-! ### Helper lemmas about `insert_data` -/

/-- On the committed path, `insert_data` returns a store whose `results`
table is the upsert (Update policy) or the insert-or-ignore (Ignore policy)
of the incoming row, whose child tables still exist, and whose child tables
are untouched when the corresponding string is absent or empty. -/
theorem insert_data_ok (data : Data) (u : Bool) (s : Store)
    (rs : List ResultRow) (ks cs : List (String × String)) (row : ResultRow)
    (hr : s.results = some rs) (hk : s.keywords = some ks)
    (hc : s.categories = some cs) (hb : buildRow data = Except.ok row) :
    ∃ s₁, insert_data data u s = ⟨Except.ok s₁, true⟩ ∧
      s₁.results =
        some (if u then upsertRow rs row else insertOrIgnoreRow rs row) ∧
      (∃ ks₁, s₁.keywords = some ks₁) ∧ (∃ cs₁, s₁.categories = some cs₁) ∧
      (getTruthy data "keywords" = none → s₁.keywords = some ks) ∧
      (getTruthy data "categories" = none → s₁.categories = some cs) := by
  rcases t1 : getTruthy data "keywords" with _ | kws
  · rcases t2 : getTruthy data "categories" with _ | cts
    · refine ⟨⟨some (if u then upsertRow rs row else insertOrIgnoreRow rs row),
        some ks, some cs⟩, ?_, rfl, ⟨ks, rfl⟩, ⟨cs, rfl⟩,
        fun _ => rfl, fun _ => rfl⟩
      simp [insert_data, hb, hr, hk, hc, insertChild, t1, t2]
    · refine ⟨⟨some (if u then upsertRow rs row else insertOrIgnoreRow rs row),
        some ks, some (cs ++ (pySplit cts).map (fun t => (row.uid, t)))⟩, ?_,
        rfl, ⟨ks, rfl⟩, ⟨_, rfl⟩, fun _ => rfl, fun h => by simp [t2] at h⟩
      simp [insert_data, hb, hr, hk, hc, insertChild, t1, t2]
  · rcases t2 : getTruthy data "categories" with _ | cts
    · refine ⟨⟨some (if u then upsertRow rs row else insertOrIgnoreRow rs row),
        some (ks ++ (pySplit kws).map (fun t => (row.uid, t))), some cs⟩, ?_,
        rfl, ⟨_, rfl⟩, ⟨cs, rfl⟩, fun h => by simp [t1] at h, fun _ => rfl⟩
      simp [insert_data, hb, hr, hk, hc, insertChild, t1, t2]
    · refine ⟨⟨some (if u then upsertRow rs row else insertOrIgnoreRow rs row),
        some (ks ++ (pySplit kws).map (fun t => (row.uid, t))),
        some (cs ++ (pySplit cts).map (fun t => (row.uid, t)))⟩, ?_,
        rfl, ⟨_, rfl⟩, ⟨_, rfl⟩,
        fun h => by simp [t1] at h, fun h => by simp [t2] at h⟩
      simp [insert_data, hb, hr, hk, hc, insertChild, t1, t2]

/-- Either all sixteen required keys are present and the parameter tuple is
built, or the first missing required key raises `KeyError`. -/
theorem buildRow_cases (d : Data) :
    (∃ row, buildRow d = Except.ok row ∧
      ∀ k ∈ requiredKeys, dLookup d k ≠ none) ∨
    (∃ k, k ∈ requiredKeys ∧ dLookup d k = none ∧
      buildRow d = Except.error (SqlError.keyError k)) := by
  rcases m1 : dLookup d "uid" with _ | v1
  · exact Or.inr ⟨"uid", by simp [requiredKeys], m1,
      by simp [buildRow, getKey, m1]⟩
  rcases m2 : dLookup d "style_of_cause" with _ | v2
  · exact Or.inr ⟨"style_of_cause", by simp [requiredKeys], m2,
      by simp [buildRow, getKey, m1, m2]⟩
  rcases m3 : dLookup d "atomic_citation" with _ | v3
  · exact Or.inr ⟨"atomic_citation", by simp [requiredKeys], m3,
      by simp [buildRow, getKey, m1, m2, m3]⟩
  rcases m4 : dLookup d "citation_type" with _ | v4
  · exact Or.inr ⟨"citation_type", by simp [requiredKeys], m4,
      by simp [buildRow, getKey, m1, m2, m3, m4]⟩
  rcases m5 : dLookup d "scr_citation" with _ | v5
  · exact Or.inr ⟨"scr_citation", by simp [requiredKeys], m5,
      by simp [buildRow, getKey, m1, m2, m3, m4, m5]⟩
  rcases m6 : dLookup d "year" with _ | v6
  · exact Or.inr ⟨"year", by simp [requiredKeys], m6,
      by simp [buildRow, getKey, m1, m2, m3, m4, m5, m6]⟩
  rcases m7 : dLookup d "court" with _ | v7
  · exact Or.inr ⟨"court", by simp [requiredKeys], m7,
      by simp [buildRow, getKey, m1, m2, m3, m4, m5, m6, m7]⟩
  rcases m8 : dLookup d "decision_number" with _ | v8
  · exact Or.inr ⟨"decision_number", by simp [requiredKeys], m8,
      by simp [buildRow, getKey, m1, m2, m3, m4, m5, m6, m7, m8]⟩
  rcases m9 : dLookup d "jurisdiction" with _ | v9
  · exact Or.inr ⟨"jurisdiction", by simp [requiredKeys], m9,
      by simp [buildRow, getKey, m1, m2, m3, m4, m5, m6, m7, m8, m9]⟩
  rcases m10 : dLookup d "court_name" with _ | v10
  · exact Or.inr ⟨"court_name", by simp [requiredKeys], m10,
      by simp [buildRow, getKey, m1, m2, m3, m4, m5, m6, m7, m8, m9, m10]⟩
  rcases m11 : dLookup d "court_level" with _ | v11
  · exact Or.inr ⟨"court_level", by simp [requiredKeys], m11,
      by simp [buildRow, getKey, m1, m2, m3, m4, m5, m6, m7, m8, m9, m10,
        m11]⟩
  rcases m12 : dLookup d "long_url" with _ | v12
  · exact Or.inr ⟨"long_url", by simp [requiredKeys], m12,
      by simp [buildRow, getKey, m1, m2, m3, m4, m5, m6, m7, m8, m9, m10,
        m11, m12]⟩
  rcases m13 : dLookup d "short_url" with _ | v13
  · exact Or.inr ⟨"short_url", by simp [requiredKeys], m13,
      by simp [buildRow, getKey, m1, m2, m3, m4, m5, m6, m7, m8, m9, m10,
        m11, m12, m13]⟩
  rcases m14 : dLookup d "language" with _ | v14
  · exact Or.inr ⟨"language", by simp [requiredKeys], m14,
      by simp [buildRow, getKey, m1, m2, m3, m4, m5, m6, m7, m8, m9, m10,
        m11, m12, m13, m14]⟩
  rcases m15 : dLookup d "docket_number" with _ | v15
  · exact Or.inr ⟨"docket_number", by simp [requiredKeys], m15,
      by simp [buildRow, getKey, m1, m2, m3, m4, m5, m6, m7, m8, m9, m10,
        m11, m12, m13, m14, m15]⟩
  rcases m16 : dLookup d "decision_date" with _ | v16
  · exact Or.inr ⟨"decision_date", by simp [requiredKeys], m16,
      by simp [buildRow, getKey, m1, m2, m3, m4, m5, m6, m7, m8, m9, m10,
        m11, m12, m13, m14, m15, m16]⟩
  refine Or.inl ⟨⟨v1, v2, v3, v4, v5, v6, v7, v8, v9, v10, v11, v12, v13,
    v14, v15, v16⟩,
    by simp [buildRow, getKey, m1, m2, m3, m4, m5, m6, m7, m8, m9, m10, m11,
      m12, m13, m14, m15, m16], ?_⟩
  intro k hkm
  simp [requiredKeys] at hkm
  rcases hkm with rfl | rfl | rfl | rfl | rfl | rfl | rfl | rfl | rfl | rfl |
    rfl | rfl | rfl | rfl | rfl | rfl <;>
    simp [m1, m2, m3, m4, m5, m6, m7, m8, m9, m10, m11, m12, m13, m14, m15,
      m16]

/-- The upserted row always belongs to the upserted table. -/
theorem upsertRow_mem (rs : List ResultRow) (row : ResultRow) :
    row ∈ upsertRow rs row := by
  unfold upsertRow
  by_cases h : rs.any (fun r => r.uid = row.uid) = true
  · rw [if_pos h]
    rw [List.any_eq_true] at h
    rcases h with ⟨r, hr, hu⟩
    have hu' : r.uid = row.uid := by simpa using hu
    exact List.mem_map.mpr ⟨r, hr, by rw [if_pos hu']⟩
  · rw [if_neg h]
    simp

/-- After an upsert, every row carrying the upserted `uid` is the upserted
row: the fifteen scalar columns were fully replaced, with no field-wise
merge. -/
theorem upsertRow_uid_unique (rs : List ResultRow) (row : ResultRow) :
    ∀ r ∈ upsertRow rs row, r.uid = row.uid → r = row := by
  intro r hr hu
  unfold upsertRow at hr
  by_cases h : rs.any (fun r => r.uid = row.uid) = true
  · rw [if_pos h] at hr
    rcases List.mem_map.mp hr with ⟨r₀, hr₀, heq⟩
    by_cases h0 : r₀.uid = row.uid
    · rw [if_pos h0] at heq
      exact heq.symm
    · rw [if_neg h0] at heq
      exact absurd (heq ▸ hu) h0
  · rw [if_neg h] at hr
    rcases List.mem_append.mp hr with h1 | h1
    · rw [List.any_eq_true] at h
      exact absurd ⟨r, h1, by simpa using hu⟩ h
    · simpa using h1

/-- When no stored row carries the incoming `uid`, the upsert appends the
incoming row. -/
theorem upsertRow_not_mem (rs : List ResultRow) (row : ResultRow)
    (h : ∀ r ∈ rs, r.uid ≠ row.uid) : upsertRow rs row = rs ++ [row] := by
  have hany : rs.any (fun r => r.uid = row.uid) = false := by
    rw [List.any_eq_false]
    intro r hr
    simpa using h r hr
  simp [upsertRow, hany]

/-- `INSERT OR IGNORE` against the primary-key table is a no-op when a row
with the incoming `uid` already exists. -/
theorem insertOrIgnoreRow_of_mem (rs : List ResultRow) (row : ResultRow)
    (h : ∃ r ∈ rs, r.uid = row.uid) : insertOrIgnoreRow rs row = rs := by
  have hany : rs.any (fun r => r.uid = row.uid) = true := by
    rw [List.any_eq_true]
    rcases h with ⟨r, hr, hu⟩
    exact ⟨r, hr, by simpa using hu⟩
  simp [insertOrIgnoreRow, hany]

/-- After `INSERT OR IGNORE`, some row carries the incoming `uid`. -/
theorem insertOrIgnoreRow_uid_mem (rs : List ResultRow) (row : ResultRow) :
    ∃ r ∈ insertOrIgnoreRow rs row, r.uid = row.uid := by
  unfold insertOrIgnoreRow
  by_cases h : rs.any (fun r => r.uid = row.uid) = true
  · rw [if_pos h]
    rw [List.any_eq_true] at h
    rcases h with ⟨r, hr, hu⟩
    exact ⟨r, hr, by simpa using hu⟩
  · rw [if_neg h]
    exact ⟨row, by simp, rfl⟩

/-! ### Claim theorems about `insert_data` -/

/-- C1 (evaluation at the failing input): the first call splits the keyword
string `"fraud — negligence — appeal"` on `" — "` into exactly the three
rows `(case1, fraud)`, `(case1, negligence)`, `(case1, appeal)` (and the
category string into its two rows), but the second call with the identical
record inserts all of them again: the child tables declare no uniqueness
constraint, so `INSERT OR IGNORE` has nothing to ignore and the tables grow
to six and four rows.  The primary row, protected by its PRIMARY KEY, is not
duplicated. -/
theorem insert_data_duplicates_child_rows :
    ∃ s₁ s₂,
      (insert_data sampleData false initializedStore).result = Except.ok s₁ ∧
      s₁.keywords = some [("case1", "fraud"), ("case1", "negligence"),
        ("case1", "appeal")] ∧
      s₁.categories = some [("case1", "criminal"), ("case1", "evidence")] ∧
      (insert_data sampleData false s₁).result = Except.ok s₂ ∧
      s₂.keywords = some [("case1", "fraud"), ("case1", "negligence"),
        ("case1", "appeal"), ("case1", "fraud"), ("case1", "negligence"),
        ("case1", "appeal")] ∧
      s₂.categories = some [("case1", "criminal"), ("case1", "evidence"),
        ("case1", "criminal"), ("case1", "evidence")] ∧
      s₂.results = s₁.results := by
  refine ⟨⟨some [sampleRow],
    some [("case1", "fraud"), ("case1", "negligence"), ("case1", "appeal")],
    some [("case1", "criminal"), ("case1", "evidence")]⟩,
    ⟨some [sampleRow],
    some [("case1", "fraud"), ("case1", "negligence"), ("case1", "appeal"),
      ("case1", "fraud"), ("case1", "negligence"), ("case1", "appeal")],
    some [("case1", "criminal"), ("case1", "evidence"), ("case1", "criminal"),
      ("case1", "evidence")]⟩, ?_⟩
  decide

/-- C2: under the Ignore policy (`update_existing=False`), when a primary row
with the incoming `uid` already exists the `results` table is left completely
unchanged (so every field of the existing row is untouched); and a second
call with identical data leaves the primary table exactly as the first call
left it, creating no second primary row. -/
theorem insert_data_ignore_preserves_existing (data : Data) (s : Store)
    (rs : List ResultRow) (ks cs : List (String × String)) (row : ResultRow)
    (hr : s.results = some rs) (hk : s.keywords = some ks)
    (hc : s.categories = some cs) (hb : buildRow data = Except.ok row) :
    ((∃ r ∈ rs, r.uid = row.uid) →
      ∃ s₁, (insert_data data false s).result = Except.ok s₁ ∧
        s₁.results = some rs) ∧
    (∀ s₁, (insert_data data false s).result = Except.ok s₁ →
      ∃ s₂, (insert_data data false s₁).result = Except.ok s₂ ∧
        s₂.results = s₁.results) := by
  obtain ⟨s₁, hins, hres, ⟨ks₁, hks₁⟩, ⟨cs₁, hcs₁⟩, -, -⟩ :=
    insert_data_ok data false s rs ks cs row hr hk hc hb
  simp only [Bool.false_eq_true, if_false] at hres
  constructor
  · intro hmem
    refine ⟨s₁, by rw [hins], ?_⟩
    rw [hres, insertOrIgnoreRow_of_mem rs row hmem]
  · intro s₁' h₁
    rw [hins] at h₁
    simp only [Except.ok.injEq] at h₁
    subst h₁
    obtain ⟨s₂, hins₂, hres₂, -, -, -, -⟩ :=
      insert_data_ok data false s₁ (insertOrIgnoreRow rs row) ks₁ cs₁ row
        hres hks₁ hcs₁ hb
    simp only [Bool.false_eq_true, if_false] at hres₂
    refine ⟨s₂, by rw [hins₂], ?_⟩
    rw [hres₂, insertOrIgnoreRow_of_mem _ row (insertOrIgnoreRow_uid_mem rs row),
      hres]

/-- C2 witness: inserting `sampleData` under Ignore into a store that already
holds its row leaves the primary table unchanged, and a repeated insert into
a fresh store leaves the primary table of the first insert unchanged. -/
theorem insert_data_ignore_preserves_existing_witness :
    (∃ s₁, (insert_data sampleData false
        (⟨some [sampleRow], some [], some []⟩ : Store)).result =
          Except.ok s₁ ∧ s₁.results = some [sampleRow]) ∧
    (∃ s₂, (insert_data sampleData false
        (⟨some [sampleRow],
          some [("case1", "fraud"), ("case1", "negligence"),
            ("case1", "appeal")],
          some [("case1", "criminal"), ("case1", "evidence")]⟩ : Store)).result =
          Except.ok s₂ ∧
        s₂.results = (⟨some [sampleRow],
          some [("case1", "fraud"), ("case1", "negligence"),
            ("case1", "appeal")],
          some [("case1", "criminal"), ("case1", "evidence")]⟩ : Store).results) :=
  ⟨(insert_data_ignore_preserves_existing sampleData
      ⟨some [sampleRow], some [], some []⟩ [sampleRow] [] [] sampleRow
      rfl rfl rfl (by decide)).1 ⟨sampleRow, by decide, rfl⟩,
   (insert_data_ignore_preserves_existing sampleData
      initializedStore [] [] [] sampleRow rfl rfl rfl (by decide)).2
      ⟨some [sampleRow],
        some [("case1", "fraud"), ("case1", "negligence"),
          ("case1", "appeal")],
        some [("case1", "criminal"), ("case1", "evidence")]⟩ (by decide)⟩

/-- C3: under the Update policy (`update_existing=True`), writing record A
and then record B with the same `uid` leaves every stored row carrying that
`uid` equal to B's row — all fifteen non-key scalar columns take B's values,
a full replace with no partial-field merge (the stored row is `rowB` itself,
so in particular it agrees with B on every scalar field); and when no row
with A's `uid` exists, the first write appends A's row. -/
theorem insert_data_update_full_replace (dA dB : Data) (s : Store)
    (rs : List ResultRow) (ks cs : List (String × String))
    (rowA rowB : ResultRow)
    (hr : s.results = some rs) (hk : s.keywords = some ks)
    (hc : s.categories = some cs)
    (hbA : buildRow dA = Except.ok rowA) (hbB : buildRow dB = Except.ok rowB)
    (huid : rowA.uid = rowB.uid) (s₁ s₂ : Store)
    (h₁ : (insert_data dA true s).result = Except.ok s₁)
    (h₂ : (insert_data dB true s₁).result = Except.ok s₂) :
    (∃ rs₂, s₂.results = some rs₂ ∧ rowB ∈ rs₂ ∧
      ∀ r ∈ rs₂, r.uid = rowB.uid → r = rowB) ∧
    ((∀ r ∈ rs, r.uid ≠ rowA.uid) → s₁.results = some (rs ++ [rowA])) := by
  obtain ⟨s₁', hins₁, hres₁, ⟨ks₁, hks₁⟩, ⟨cs₁, hcs₁⟩, -, -⟩ :=
    insert_data_ok dA true s rs ks cs rowA hr hk hc hbA
  rw [hins₁] at h₁
  simp only [Except.ok.injEq] at h₁
  rw [h₁] at hres₁ hks₁ hcs₁
  simp only [if_true] at hres₁
  obtain ⟨s₂', hins₂, hres₂, -, -, -, -⟩ :=
    insert_data_ok dB true s₁ (upsertRow rs rowA) ks₁ cs₁ rowB
      hres₁ hks₁ hcs₁ hbB
  rw [hins₂] at h₂
  simp only [Except.ok.injEq] at h₂
  rw [h₂] at hres₂
  simp only [if_true] at hres₂
  constructor
  · exact ⟨upsertRow (upsertRow rs rowA) rowB, hres₂,
      upsertRow_mem _ _, upsertRow_uid_unique _ _⟩
  · intro hnone
    rw [hres₁, upsertRow_not_mem rs rowA (fun r hrr => (hnone r hrr))]

/-- C3 witness: writing `sampleData` then `sampleDataB` (same `uid`, all
scalar fields different) under Update leaves the single stored row equal to
B's row, and the first write appended A's row to the empty table. -/
theorem insert_data_update_full_replace_witness :
    (∃ rs₂, (⟨some [sampleRowB],
        some [("case1", "fraud"), ("case1", "negligence"),
          ("case1", "appeal")],
        some [("case1", "criminal"), ("case1", "evidence")]⟩ : Store).results =
          some rs₂ ∧ sampleRowB ∈ rs₂ ∧
        ∀ r ∈ rs₂, r.uid = sampleRowB.uid → r = sampleRowB) ∧
    ((∀ r ∈ ([] : List ResultRow), r.uid ≠ sampleRow.uid) →
      (⟨some [sampleRow],
        some [("case1", "fraud"), ("case1", "negligence"),
          ("case1", "appeal")],
        some [("case1", "criminal"), ("case1", "evidence")]⟩ : Store).results =
          some ([] ++ [sampleRow])) :=
  insert_data_update_full_replace sampleData sampleDataB initializedStore
    [] [] [] sampleRow sampleRowB rfl rfl rfl (by decide) (by decide) rfl
    ⟨some [sampleRow],
      some [("case1", "fraud"), ("case1", "negligence"), ("case1", "appeal")],
      some [("case1", "criminal"), ("case1", "evidence")]⟩
    ⟨some [sampleRowB],
      some [("case1", "fraud"), ("case1", "negligence"), ("case1", "appeal")],
      some [("case1", "criminal"), ("case1", "evidence")]⟩
    (by decide) (by decide)

/-- C9 counterexample: on an error exit path the connection is not released.
`insert_data` with an empty data dictionary raises `KeyError('uid')` while
building the parameter tuple, and — since the function has no
`try`/`finally` — `conn.close()` is never reached: the call returns with
`connClosed = false`, refuting the claim that the connection is released on
every exit path. -/
theorem insert_data_error_path_leaks_connection :
    insert_data [] false initializedStore =
      ⟨Except.error (SqlError.keyError "uid"), false⟩ := by
  decide

/-- C9 (amended): every call of `insert_data` opens its own connection, and
that connection is closed exactly on the normal completion path: it is
closed when the call returns a store, and it is not closed (the handle
leaks) on every error exit path, because the function has no
`try`/`finally`. -/
theorem insert_data_conn_closed_iff_ok (data : Data) (u : Bool) (s : Store) :
    (insert_data data u s).connClosed = true ↔
      ∃ s₁, (insert_data data u s).result = Except.ok s₁ := by
  cases hb : buildRow data with
  | error e => simp [insert_data, hb]
  | ok row =>
  cases hres : s.results with
  | none => simp [insert_data, hb, hres]
  | some rs =>
  cases hkk : insertChild s.keywords "keywords" row.uid
      (getTruthy data "keywords") with
  | error e => simp [insert_data, hb, hres, hkk]
  | ok ks₁ =>
  cases hcc : insertChild s.categories "categories" row.uid
      (getTruthy data "categories") with
  | error e => simp [insert_data, hb, hres, hkk, hcc]
  | ok cs₁ => simp [insert_data, hb, hres, hkk, hcc]

/-- C9 witness: the equivalence evaluated on a successful call. -/
theorem insert_data_conn_closed_iff_ok_witness :
    (insert_data sampleData false initializedStore).connClosed = true ↔
      ∃ s₁, (insert_data sampleData false initializedStore).result =
        Except.ok s₁ :=
  insert_data_conn_closed_iff_ok sampleData false initializedStore

/-- C10: `insert_data` requires all sixteen scalar keys: if any of them is
missing from the data dictionary the call fails with a key-lookup error
(the `KeyError` of the first missing key) before touching the store;
whereas the `keywords` and `categories` keys are optional: when all sixteen
scalar keys are present the call succeeds, and an absent or empty keyword
(resp. category) string inserts no row into the corresponding child
table. -/
theorem insert_data_required_and_optional_keys (data : Data) (u : Bool)
    (s : Store) (rs : List ResultRow) (ks cs : List (String × String))
    (hr : s.results = some rs) (hk : s.keywords = some ks)
    (hc : s.categories = some cs) :
    ((∃ k ∈ requiredKeys, dLookup data k = none) →
      ∃ k', k' ∈ requiredKeys ∧ dLookup data k' = none ∧
        insert_data data u s =
          ⟨Except.error (SqlError.keyError k'), false⟩) ∧
    ((∀ k ∈ requiredKeys, dLookup data k ≠ none) →
      ∃ s₁, (insert_data data u s).result = Except.ok s₁ ∧
        ((dLookup data "keywords" = none ∨
            dLookup data "keywords" = some "") →
          s₁.keywords = some ks) ∧
        ((dLookup data "categories" = none ∨
            dLookup data "categories" = some "") →
          s₁.categories = some cs)) := by
  rcases buildRow_cases data with ⟨row, hb, hall⟩ | ⟨k, hkmem, hknone, hberr⟩
  · constructor
    · rintro ⟨k, hkm, hkn⟩
      exact absurd hkn (hall k hkm)
    · intro hpresent
      obtain ⟨s₁, hins, -, -, -, hkw, hcat⟩ :=
        insert_data_ok data u s rs ks cs row hr hk hc hb
      refine ⟨s₁, by rw [hins], ?_, ?_⟩
      · intro hd
        apply hkw
        rcases hd with hd | hd <;> simp [getTruthy, hd]
      · intro hd
        apply hcat
        rcases hd with hd | hd <;> simp [getTruthy, hd]
  · constructor
    · intro _
      exact ⟨k, hkmem, hknone, by simp [insert_data, hberr]⟩
    · intro hpresent
      exact absurd hknone (hpresent k hkmem)

/-- C10 witness: the empty dictionary fails with the `KeyError` of a missing
required key; a dictionary holding exactly the sixteen scalar keys succeeds
and leaves both child tables empty. -/
theorem insert_data_required_and_optional_keys_witness :
    (∃ k', k' ∈ requiredKeys ∧ dLookup ([] : Data) k' = none ∧
      insert_data [] false initializedStore =
        ⟨Except.error (SqlError.keyError k'), false⟩) ∧
    (∃ s₁, (insert_data sampleDataB false initializedStore).result =
        Except.ok s₁ ∧
      ((dLookup sampleDataB "keywords" = none ∨
          dLookup sampleDataB "keywords" = some "") →
        s₁.keywords = some []) ∧
      ((dLookup sampleDataB "categories" = none ∨
          dLookup sampleDataB "categories" = some "") →
        s₁.categories = some [])) :=
  ⟨(insert_data_required_and_optional_keys [] false initializedStore
      [] [] [] rfl rfl rfl).1 ⟨"uid", by decide, rfl⟩,
   (insert_data_required_and_optional_keys sampleDataB false initializedStore
      [] [] [] rfl rfl rfl).2 (by decide)⟩

/-! ### Helper lemmas about the facet blocks of `canlii_api_call` -/

/-- Reading a dict after a Python dict assignment: the assigned key returns
the new value, every other key is unaffected. -/
theorem dictGet_set (d : List (String × Val)) (k k' : String) (v : Val) :
    dictGet (dictSet d k v) k' = if k' = k then some v else dictGet d k' := by
  induction d with
  | nil =>
    rcases eq_or_ne k' k with rfl | h
    · simp [dictSet, dictGet]
    · simp [dictSet, dictGet, h, Ne.symm h]
  | cons p rest ih =>
    obtain ⟨k₀, v₀⟩ := p
    by_cases h0 : k₀ = k
    · subst h0
      rcases eq_or_ne k' k₀ with rfl | h
      · simp [dictSet, dictGet]
      · simp [dictSet, dictGet, h, Ne.symm h]
    · rcases eq_or_ne k₀ k' with rfl | h1
      · have hk : k₀ ≠ k := h0
        simp [dictSet, dictGet, h0, Ne.symm hk]
      · simp [dictSet, dictGet, h0, h1, ih]

/-- Membership in the one-element request list contributed by a guarded
facet block. -/
theorem mem_ite_single {e e' : Endpoint} {c : Bool} :
    e ∈ (if c then [e'] else []) ↔ c = true ∧ e = e' := by
  cases c <;> simp

/-- Full characterisation of a successful `decision_metadata` block. -/
theorem decisionStep_ok_elim (flag : Bool) (svc : Service) (st st' : CallState)
    (h : decisionStep flag svc st = Except.ok st') :
    (flag = false ∧ st' = st) ∨
    (flag = true ∧ ∃ cm u lg dn dd kw tp,
      svc.decisionResp.body = some cm ∧
      jLookup cm "url" = some u ∧ jLookup cm "language" = some lg ∧
      jLookup cm "docketNumber" = some dn ∧
      jLookup cm "decisionDate" = some dd ∧
      jLookup cm "keywords" = some kw ∧ jLookup cm "topics" = some tp ∧
      st' = ⟨st.reqs ++ [Endpoint.caseBrowse],
        dictSet (dictSet (dictSet (dictSet (dictSet (dictSet st.dict
          "short_url" (Val.s u)) "language" (Val.s lg))
          "docket_number" (Val.s dn)) "decision_date" (Val.s dd))
          "keywords" (Val.s kw)) "categories" (Val.s tp)⟩) := by
  cases flag with
  | false =>
    left
    simp only [decisionStep, Bool.false_eq_true, if_false,
      Except.ok.injEq] at h
    exact ⟨rfl, h.symm⟩
  | true =>
    right
    refine ⟨rfl, ?_⟩
    rcases hb : svc.decisionResp.body with _ | cm
    · simp [decisionStep, hb] at h
    rcases l1 : jLookup cm "url" with _ | u
    · simp [decisionStep, hb, l1] at h
    rcases l2 : jLookup cm "language" with _ | lg
    · simp [decisionStep, hb, l1, l2] at h
    rcases l3 : jLookup cm "docketNumber" with _ | dn
    · simp [decisionStep, hb, l1, l2, l3] at h
    rcases l4 : jLookup cm "decisionDate" with _ | dd
    · simp [decisionStep, hb, l1, l2, l3, l4] at h
    rcases l5 : jLookup cm "keywords" with _ | kw
    · simp [decisionStep, hb, l1, l2, l3, l4, l5] at h
    rcases l6 : jLookup cm "topics" with _ | tp
    · simp [decisionStep, hb, l1, l2, l3, l4, l5, l6] at h
    simp only [decisionStep, if_true, hb, l1, l2, l3, l4, l5, l6,
      Except.ok.injEq] at h
    exact ⟨cm, u, lg, dn, dd, kw, tp, rfl, l1, l2, l3, l4, l5, l6, h.symm⟩

/-- Full characterisation of a successful `cases_cited` block. -/
theorem citedStep_ok_elim (flag : Bool) (svc : Service) (st st' : CallState)
    (h : citedStep flag svc st = Except.ok st') :
    (flag = false ∧ st' = st) ∨
    (flag = true ∧ ∃ j, svc.citedResp.body = some j ∧
      st' = ⟨st.reqs ++ [Endpoint.citedCases],
        dictSet st.dict "cited_cases" (Val.j j)⟩) := by
  cases flag with
  | false =>
    left
    simp only [citedStep, Bool.false_eq_true, if_false, Except.ok.injEq] at h
    exact ⟨rfl, h.symm⟩
  | true =>
    right
    refine ⟨rfl, ?_⟩
    rcases hb : svc.citedResp.body with _ | j
    · simp [citedStep, hb] at h
    simp only [citedStep, if_true, hb, Except.ok.injEq] at h
    exact ⟨j, rfl, h.symm⟩

/-- Full characterisation of a successful `cases_citing` block. -/
theorem citingStep_ok_elim (flag : Bool) (svc : Service) (st st' : CallState)
    (h : citingStep flag svc st = Except.ok st') :
    (flag = false ∧ st' = st) ∨
    (flag = true ∧ ∃ j, svc.citingResp.body = some j ∧
      st' = ⟨st.reqs ++ [Endpoint.citingCases],
        dictSet st.dict "citing_cases" (Val.j j)⟩) := by
  cases flag with
  | false =>
    left
    simp only [citingStep, Bool.false_eq_true, if_false, Except.ok.injEq] at h
    exact ⟨rfl, h.symm⟩
  | true =>
    right
    refine ⟨rfl, ?_⟩
    rcases hb : svc.citingResp.body with _ | j
    · simp [citingStep, hb] at h
    simp only [citingStep, if_true, hb, Except.ok.injEq] at h
    exact ⟨j, rfl, h.symm⟩

/-- Full characterisation of a successful `legislation_metadata` block. -/
theorem legislationStep_ok_elim (flag : Bool) (svc : Service)
    (st st' : CallState) (h : legislationStep flag svc st = Except.ok st') :
    (flag = false ∧ st' = st) ∨
    (flag = true ∧ ∃ lm di li ti ty ci,
      svc.legislationResp.body = some lm ∧
      jLookup lm "databaseId" = some di ∧
      jLookup lm "legislationId" = some li ∧
      jLookup lm "title" = some ti ∧ jLookup lm "type" = some ty ∧
      jLookup lm "citation" = some ci ∧
      st' = ⟨st.reqs ++ [Endpoint.legislationBrowse],
        dictSet (dictSet (dictSet (dictSet (dictSet st.dict
          "database_id" (Val.s di)) "legislation_id" (Val.s li))
          "title" (Val.s ti)) "type" (Val.s ty)) "citation" (Val.s ci)⟩) := by
  cases flag with
  | false =>
    left
    simp only [legislationStep, Bool.false_eq_true, if_false,
      Except.ok.injEq] at h
    exact ⟨rfl, h.symm⟩
  | true =>
    right
    refine ⟨rfl, ?_⟩
    rcases hb : svc.legislationResp.body with _ | lm
    · simp [legislationStep, hb] at h
    rcases l1 : jLookup lm "databaseId" with _ | di
    · simp [legislationStep, hb, l1] at h
    rcases l2 : jLookup lm "legislationId" with _ | li
    · simp [legislationStep, hb, l1, l2] at h
    rcases l3 : jLookup lm "title" with _ | ti
    · simp [legislationStep, hb, l1, l2, l3] at h
    rcases l4 : jLookup lm "type" with _ | ty
    · simp [legislationStep, hb, l1, l2, l3, l4] at h
    rcases l5 : jLookup lm "citation" with _ | ci
    · simp [legislationStep, hb, l1, l2, l3, l4, l5] at h
    simp only [legislationStep, if_true, hb, l1, l2, l3, l4, l5,
      Except.ok.injEq] at h
    exact ⟨lm, di, li, ti, ty, ci, rfl, l1, l2, l3, l4, l5, h.symm⟩

/-- Full characterisation of a successful `canlii_database` block. -/
theorem databaseStep_ok_elim (flag : Bool) (svc : Service) (st st' : CallState)
    (h : databaseStep flag svc st = Except.ok st') :
    (flag = false ∧ st' = st) ∨
    (flag = true ∧ ∃ j, svc.databaseResp.body = some j ∧
      st' = ⟨st.reqs ++ [Endpoint.databaseList],
        dictSet st.dict "database" (Val.j j)⟩) := by
  cases flag with
  | false =>
    left
    simp only [databaseStep, Bool.false_eq_true, if_false,
      Except.ok.injEq] at h
    exact ⟨rfl, h.symm⟩
  | true =>
    right
    refine ⟨rfl, ?_⟩
    rcases hb : svc.databaseResp.body with _ | j
    · simp [databaseStep, hb] at h
    simp only [databaseStep, if_true, hb, Except.ok.injEq] at h
    exact ⟨j, rfl, h.symm⟩

/-- The `decision_metadata` block touches no dict key outside its six own
keys. -/
theorem decisionStep_frame (flag : Bool) (svc : Service) (st st' : CallState)
    (h : decisionStep flag svc st = Except.ok st') (k : String)
    (h1 : k ≠ "short_url") (h2 : k ≠ "language") (h3 : k ≠ "docket_number")
    (h4 : k ≠ "decision_date") (h5 : k ≠ "keywords") (h6 : k ≠ "categories") :
    dictGet st'.dict k = dictGet st.dict k := by
  rcases decisionStep_ok_elim flag svc st st' h with ⟨-, rfl⟩ |
    ⟨-, cm, u, lg, dn, dd, kw, tp, -, -, -, -, -, -, -, rfl⟩
  · rfl
  · simp [dictGet_set, h1, h2, h3, h4, h5, h6]

/-- The `cases_cited` block touches no dict key other than `"cited_cases"`. -/
theorem citedStep_frame (flag : Bool) (svc : Service) (st st' : CallState)
    (h : citedStep flag svc st = Except.ok st') (k : String)
    (h1 : k ≠ "cited_cases") :
    dictGet st'.dict k = dictGet st.dict k := by
  rcases citedStep_ok_elim flag svc st st' h with ⟨-, rfl⟩ | ⟨-, j, -, rfl⟩
  · rfl
  · simp [dictGet_set, h1]

/-- The `cases_citing` block touches no dict key other than
`"citing_cases"`. -/
theorem citingStep_frame (flag : Bool) (svc : Service) (st st' : CallState)
    (h : citingStep flag svc st = Except.ok st') (k : String)
    (h1 : k ≠ "citing_cases") :
    dictGet st'.dict k = dictGet st.dict k := by
  rcases citingStep_ok_elim flag svc st st' h with ⟨-, rfl⟩ | ⟨-, j, -, rfl⟩
  · rfl
  · simp [dictGet_set, h1]

/-- The `legislation_metadata` block touches no dict key outside its five own
keys. -/
theorem legislationStep_frame (flag : Bool) (svc : Service)
    (st st' : CallState) (h : legislationStep flag svc st = Except.ok st')
    (k : String) (h1 : k ≠ "database_id") (h2 : k ≠ "legislation_id")
    (h3 : k ≠ "title") (h4 : k ≠ "type") (h5 : k ≠ "citation") :
    dictGet st'.dict k = dictGet st.dict k := by
  rcases legislationStep_ok_elim flag svc st st' h with ⟨-, rfl⟩ |
    ⟨-, lm, di, li, ti, ty, ci, -, -, -, -, -, -, rfl⟩
  · rfl
  · simp [dictGet_set, h1, h2, h3, h4, h5]

/-- The `canlii_database` block touches no dict key other than
`"database"`. -/
theorem databaseStep_frame (flag : Bool) (svc : Service) (st st' : CallState)
    (h : databaseStep flag svc st = Except.ok st') (k : String)
    (h1 : k ≠ "database") :
    dictGet st'.dict k = dictGet st.dict k := by
  rcases databaseStep_ok_elim flag svc st st' h with ⟨-, rfl⟩ | ⟨-, j, -, rfl⟩
  · rfl
  · simp [dictGet_set, h1]

/-- The requests issued by the `decision_metadata` block. -/
theorem decisionStep_reqs (flag : Bool) (svc : Service) (st st' : CallState)
    (h : decisionStep flag svc st = Except.ok st') :
    st'.reqs = st.reqs ++ (if flag then [Endpoint.caseBrowse] else []) := by
  rcases decisionStep_ok_elim flag svc st st' h with ⟨rfl, rfl⟩ |
    ⟨rfl, cm, u, lg, dn, dd, kw, tp, -, -, -, -, -, -, -, rfl⟩ <;> simp

/-- The requests issued by the `cases_cited` block. -/
theorem citedStep_reqs (flag : Bool) (svc : Service) (st st' : CallState)
    (h : citedStep flag svc st = Except.ok st') :
    st'.reqs = st.reqs ++ (if flag then [Endpoint.citedCases] else []) := by
  rcases citedStep_ok_elim flag svc st st' h with ⟨rfl, rfl⟩ |
    ⟨rfl, j, -, rfl⟩ <;> simp

/-- The requests issued by the `cases_citing` block. -/
theorem citingStep_reqs (flag : Bool) (svc : Service) (st st' : CallState)
    (h : citingStep flag svc st = Except.ok st') :
    st'.reqs = st.reqs ++ (if flag then [Endpoint.citingCases] else []) := by
  rcases citingStep_ok_elim flag svc st st' h with ⟨rfl, rfl⟩ |
    ⟨rfl, j, -, rfl⟩ <;> simp

/-- The requests issued by the `legislation_metadata` block. -/
theorem legislationStep_reqs (flag : Bool) (svc : Service) (st st' : CallState)
    (h : legislationStep flag svc st = Except.ok st') :
    st'.reqs =
      st.reqs ++ (if flag then [Endpoint.legislationBrowse] else []) := by
  rcases legislationStep_ok_elim flag svc st st' h with ⟨rfl, rfl⟩ |
    ⟨rfl, lm, di, li, ti, ty, ci, -, -, -, -, -, -, rfl⟩ <;> simp

/-- The requests issued by the `canlii_database` block. -/
theorem databaseStep_reqs (flag : Bool) (svc : Service) (st st' : CallState)
    (h : databaseStep flag svc st = Except.ok st') :
    st'.reqs = st.reqs ++ (if flag then [Endpoint.databaseList] else []) := by
  rcases databaseStep_ok_elim flag svc st st' h with ⟨rfl, rfl⟩ |
    ⟨rfl, j, -, rfl⟩ <;> simp

/-- The dict values written by a requested `decision_metadata` block. -/
theorem decisionStep_values (svc : Service) (st st' : CallState)
    (h : decisionStep true svc st = Except.ok st') :
    ∃ cm, svc.decisionResp.body = some cm ∧
      dictGet st'.dict "short_url" = (jLookup cm "url").map Val.s ∧
      dictGet st'.dict "language" = (jLookup cm "language").map Val.s ∧
      dictGet st'.dict "docket_number" =
        (jLookup cm "docketNumber").map Val.s ∧
      dictGet st'.dict "decision_date" =
        (jLookup cm "decisionDate").map Val.s ∧
      dictGet st'.dict "keywords" = (jLookup cm "keywords").map Val.s ∧
      dictGet st'.dict "categories" = (jLookup cm "topics").map Val.s := by
  rcases decisionStep_ok_elim true svc st st' h with ⟨hf, -⟩ |
    ⟨-, cm, u, lg, dn, dd, kw, tp, hb, l1, l2, l3, l4, l5, l6, rfl⟩
  · simp at hf
  · refine ⟨cm, hb, ?_, ?_, ?_, ?_, ?_, ?_⟩ <;>
      simp [dictGet_set, l1, l2, l3, l4, l5, l6]

/-- The dict value written by a requested `cases_cited` block: the decoded
body, stored verbatim. -/
theorem citedStep_values (svc : Service) (st st' : CallState)
    (h : citedStep true svc st = Except.ok st') :
    ∃ j, svc.citedResp.body = some j ∧
      dictGet st'.dict "cited_cases" = some (Val.j j) := by
  rcases citedStep_ok_elim true svc st st' h with ⟨hf, -⟩ | ⟨-, j, hb, rfl⟩
  · simp at hf
  · exact ⟨j, hb, by simp [dictGet_set]⟩

/-- The dict value written by a requested `cases_citing` block. -/
theorem citingStep_values (svc : Service) (st st' : CallState)
    (h : citingStep true svc st = Except.ok st') :
    ∃ j, svc.citingResp.body = some j ∧
      dictGet st'.dict "citing_cases" = some (Val.j j) := by
  rcases citingStep_ok_elim true svc st st' h with ⟨hf, -⟩ | ⟨-, j, hb, rfl⟩
  · simp at hf
  · exact ⟨j, hb, by simp [dictGet_set]⟩

/-- The dict values written by a requested `legislation_metadata` block. -/
theorem legislationStep_values (svc : Service) (st st' : CallState)
    (h : legislationStep true svc st = Except.ok st') :
    ∃ lm, svc.legislationResp.body = some lm ∧
      dictGet st'.dict "database_id" = (jLookup lm "databaseId").map Val.s ∧
      dictGet st'.dict "legislation_id" =
        (jLookup lm "legislationId").map Val.s ∧
      dictGet st'.dict "title" = (jLookup lm "title").map Val.s ∧
      dictGet st'.dict "type" = (jLookup lm "type").map Val.s ∧
      dictGet st'.dict "citation" = (jLookup lm "citation").map Val.s := by
  rcases legislationStep_ok_elim true svc st st' h with ⟨hf, -⟩ |
    ⟨-, lm, di, li, ti, ty, ci, hb, l1, l2, l3, l4, l5, rfl⟩
  · simp at hf
  · refine ⟨lm, hb, ?_, ?_, ?_, ?_, ?_⟩ <;>
      simp [dictGet_set, l1, l2, l3, l4, l5]

/-- The dict value written by a requested `canlii_database` block. -/
theorem databaseStep_values (svc : Service) (st st' : CallState)
    (h : databaseStep true svc st = Except.ok st') :
    ∃ j, svc.databaseResp.body = some j ∧
      dictGet st'.dict "database" = some (Val.j j) := by
  rcases databaseStep_ok_elim true svc st st' h with ⟨hf, -⟩ | ⟨-, j, hb, rfl⟩
  · simp at hf
  · exact ⟨j, hb, by simp [dictGet_set]⟩

/-- A `canlii_api_call` that returns a record ran the facet pipeline to
success. -/
theorem canlii_api_call_ok_elim (envKey : Option String) (console : String)
    (flags : ApiFlags) (svc : Service) (st : CallState)
    (h : canlii_api_call envKey console flags svc = CallOutcome.ok st) :
    aggregateFacets flags svc = Except.ok st := by
  unfold canlii_api_call at h
  rcases hcred : resolveCredential envKey console with ⟨co, b⟩
  rw [hcred] at h
  cases co with
  | exited c => simp at h
  | key k =>
    cases ha : aggregateFacets flags svc with
    | error e => rw [ha] at h; simp at h
    | ok st5 =>
      rw [ha] at h
      simp only [CallOutcome.ok.injEq] at h
      rw [h]

/-- A successful facet pipeline decomposes into five successful blocks run in
source order from the empty state. -/
theorem aggregateFacets_ok_elim (flags : ApiFlags) (svc : Service)
    (st : CallState) (h : aggregateFacets flags svc = Except.ok st) :
    ∃ st1 st2 st3 st4,
      decisionStep flags.decision_metadata svc ⟨[], []⟩ = Except.ok st1 ∧
      citedStep flags.cases_cited svc st1 = Except.ok st2 ∧
      citingStep flags.cases_citing svc st2 = Except.ok st3 ∧
      legislationStep flags.legislation_metadata svc st3 = Except.ok st4 ∧
      databaseStep flags.canlii_database svc st4 = Except.ok st := by
  unfold aggregateFacets at h
  cases h1 : decisionStep flags.decision_metadata svc ⟨[], []⟩ with
  | error e => rw [h1] at h; simp at h
  | ok st1 =>
  rw [h1] at h
  simp only [] at h
  cases h2 : citedStep flags.cases_cited svc st1 with
  | error e => rw [h2] at h; simp at h
  | ok st2 =>
  rw [h2] at h
  simp only [] at h
  cases h3 : citingStep flags.cases_citing svc st2 with
  | error e => rw [h3] at h; simp at h
  | ok st3 =>
  rw [h3] at h
  simp only [] at h
  cases h4 : legislationStep flags.legislation_metadata svc st3 with
  | error e => rw [h4] at h; simp at h
  | ok st4 =>
  rw [h4] at h
  simp only [] at h
  cases h5 : databaseStep flags.canlii_database svc st4 with
  | error e => rw [h5] at h; simp at h
  | ok st5 =>
  rw [h5] at h
  simp only [Except.ok.injEq] at h
  exact ⟨st1, st2, st3, st4, rfl, h2, h3, h4, h ▸ h5⟩

/-! ### Claim theorems about `canlii_api_call` -/

/-- C4: in a returned record, a facet whose flag is not set triggered no
request to that facet's endpoint and contributed none of its keys to the
returned dict; and each requested facet's keys hold exactly the values
extracted from that facet's own response (`decision_metadata` →
short_url/language/docket_number/decision_date/keywords/categories,
`cases_cited` → cited_cases, `cases_citing` → citing_cases,
`legislation_metadata` → database_id/legislation_id/title/type/citation,
`canlii_database` → database), the five key sets being pairwise disjoint, so
no facet's result overwrites another facet's fields. -/
theorem canlii_api_call_facet_independence (envKey : Option String)
    (console : String) (flags : ApiFlags) (svc : Service) (st : CallState)
    (h : canlii_api_call envKey console flags svc = CallOutcome.ok st) :
    (flags.decision_metadata = false → Endpoint.caseBrowse ∉ st.reqs ∧
      dictGet st.dict "short_url" = none ∧
      dictGet st.dict "language" = none ∧
      dictGet st.dict "docket_number" = none ∧
      dictGet st.dict "decision_date" = none ∧
      dictGet st.dict "keywords" = none ∧
      dictGet st.dict "categories" = none) ∧
    (flags.cases_cited = false → Endpoint.citedCases ∉ st.reqs ∧
      dictGet st.dict "cited_cases" = none) ∧
    (flags.cases_citing = false → Endpoint.citingCases ∉ st.reqs ∧
      dictGet st.dict "citing_cases" = none) ∧
    (flags.legislation_metadata = false →
      Endpoint.legislationBrowse ∉ st.reqs ∧
      dictGet st.dict "database_id" = none ∧
      dictGet st.dict "legislation_id" = none ∧
      dictGet st.dict "title" = none ∧
      dictGet st.dict "type" = none ∧
      dictGet st.dict "citation" = none) ∧
    (flags.canlii_database = false → Endpoint.databaseList ∉ st.reqs ∧
      dictGet st.dict "database" = none) ∧
    (flags.decision_metadata = true → ∃ cm,
      svc.decisionResp.body = some cm ∧
      dictGet st.dict "short_url" = (jLookup cm "url").map Val.s ∧
      dictGet st.dict "language" = (jLookup cm "language").map Val.s ∧
      dictGet st.dict "docket_number" =
        (jLookup cm "docketNumber").map Val.s ∧
      dictGet st.dict "decision_date" =
        (jLookup cm "decisionDate").map Val.s ∧
      dictGet st.dict "keywords" = (jLookup cm "keywords").map Val.s ∧
      dictGet st.dict "categories" = (jLookup cm "topics").map Val.s) ∧
    (flags.cases_cited = true → ∃ j, svc.citedResp.body = some j ∧
      dictGet st.dict "cited_cases" = some (Val.j j)) ∧
    (flags.cases_citing = true → ∃ j, svc.citingResp.body = some j ∧
      dictGet st.dict "citing_cases" = some (Val.j j)) ∧
    (flags.legislation_metadata = true → ∃ lm,
      svc.legislationResp.body = some lm ∧
      dictGet st.dict "database_id" = (jLookup lm "databaseId").map Val.s ∧
      dictGet st.dict "legislation_id" =
        (jLookup lm "legislationId").map Val.s ∧
      dictGet st.dict "title" = (jLookup lm "title").map Val.s ∧
      dictGet st.dict "type" = (jLookup lm "type").map Val.s ∧
      dictGet st.dict "citation" = (jLookup lm "citation").map Val.s) ∧
    (flags.canlii_database = true → ∃ j, svc.databaseResp.body = some j ∧
      dictGet st.dict "database" = some (Val.j j)) := by
  obtain ⟨st1, st2, st3, st4, h1, h2, h3, h4, h5⟩ :=
    aggregateFacets_ok_elim flags svc st
      (canlii_api_call_ok_elim envKey console flags svc st h)
  have r1 := decisionStep_reqs _ _ _ _ h1
  have r2 := citedStep_reqs _ _ _ _ h2
  have r3 := citingStep_reqs _ _ _ _ h3
  have r4 := legislationStep_reqs _ _ _ _ h4
  have r5 := databaseStep_reqs _ _ _ _ h5
  refine ⟨?_, ?_, ?_, ?_, ?_, ?_, ?_, ?_, ?_, ?_⟩
  · intro hf
    rcases decisionStep_ok_elim _ _ _ _ h1 with ⟨-, rfl⟩ | ⟨htrue, -⟩
    · refine ⟨?_, ?_, ?_, ?_, ?_, ?_, ?_⟩
      · rw [r5, r4, r3, r2]
        simp [List.mem_append, mem_ite_single]
      · rw [databaseStep_frame _ _ _ _ h5 "short_url" (by decide),
          legislationStep_frame _ _ _ _ h4 "short_url" (by decide) (by decide)
            (by decide) (by decide) (by decide),
          citingStep_frame _ _ _ _ h3 "short_url" (by decide),
          citedStep_frame _ _ _ _ h2 "short_url" (by decide)]
        rfl
      · rw [databaseStep_frame _ _ _ _ h5 "language" (by decide),
          legislationStep_frame _ _ _ _ h4 "language" (by decide) (by decide)
            (by decide) (by decide) (by decide),
          citingStep_frame _ _ _ _ h3 "language" (by decide),
          citedStep_frame _ _ _ _ h2 "language" (by decide)]
        rfl
      · rw [databaseStep_frame _ _ _ _ h5 "docket_number" (by decide),
          legislationStep_frame _ _ _ _ h4 "docket_number" (by decide)
            (by decide) (by decide) (by decide) (by decide),
          citingStep_frame _ _ _ _ h3 "docket_number" (by decide),
          citedStep_frame _ _ _ _ h2 "docket_number" (by decide)]
        rfl
      · rw [databaseStep_frame _ _ _ _ h5 "decision_date" (by decide),
          legislationStep_frame _ _ _ _ h4 "decision_date" (by decide)
            (by decide) (by decide) (by decide) (by decide),
          citingStep_frame _ _ _ _ h3 "decision_date" (by decide),
          citedStep_frame _ _ _ _ h2 "decision_date" (by decide)]
        rfl
      · rw [databaseStep_frame _ _ _ _ h5 "keywords" (by decide),
          legislationStep_frame _ _ _ _ h4 "keywords" (by decide) (by decide)
            (by decide) (by decide) (by decide),
          citingStep_frame _ _ _ _ h3 "keywords" (by decide),
          citedStep_frame _ _ _ _ h2 "keywords" (by decide)]
        rfl
      · rw [databaseStep_frame _ _ _ _ h5 "categories" (by decide),
          legislationStep_frame _ _ _ _ h4 "categories" (by decide)
            (by decide) (by decide) (by decide) (by decide),
          citingStep_frame _ _ _ _ h3 "categories" (by decide),
          citedStep_frame _ _ _ _ h2 "categories" (by decide)]
        rfl
    · simp [hf] at htrue
  · intro hf
    rcases citedStep_ok_elim _ _ _ _ h2 with ⟨-, rfl⟩ | ⟨htrue, -⟩
    · constructor
      · rw [r5, r4, r3, r1]
        simp [List.mem_append, mem_ite_single]
      · rw [databaseStep_frame _ _ _ _ h5 "cited_cases" (by decide),
          legislationStep_frame _ _ _ _ h4 "cited_cases" (by decide)
            (by decide) (by decide) (by decide) (by decide),
          citingStep_frame _ _ _ _ h3 "cited_cases" (by decide),
          decisionStep_frame _ _ _ _ h1 "cited_cases" (by decide) (by decide)
            (by decide) (by decide) (by decide) (by decide)]
        rfl
    · simp [hf] at htrue
  · intro hf
    rcases citingStep_ok_elim _ _ _ _ h3 with ⟨-, rfl⟩ | ⟨htrue, -⟩
    · constructor
      · rw [r5, r4, r2, r1]
        simp [List.mem_append, mem_ite_single]
      · rw [databaseStep_frame _ _ _ _ h5 "citing_cases" (by decide),
          legislationStep_frame _ _ _ _ h4 "citing_cases" (by decide)
            (by decide) (by decide) (by decide) (by decide),
          citedStep_frame _ _ _ _ h2 "citing_cases" (by decide),
          decisionStep_frame _ _ _ _ h1 "citing_cases" (by decide) (by decide)
            (by decide) (by decide) (by decide) (by decide)]
        rfl
    · simp [hf] at htrue
  · intro hf
    rcases legislationStep_ok_elim _ _ _ _ h4 with ⟨-, rfl⟩ | ⟨htrue, -⟩
    · refine ⟨?_, ?_, ?_, ?_, ?_, ?_⟩
      · rw [r5, r3, r2, r1]
        simp [List.mem_append, mem_ite_single]
      · rw [databaseStep_frame _ _ _ _ h5 "database_id" (by decide),
          citingStep_frame _ _ _ _ h3 "database_id" (by decide),
          citedStep_frame _ _ _ _ h2 "database_id" (by decide),
          decisionStep_frame _ _ _ _ h1 "database_id" (by decide) (by decide)
            (by decide) (by decide) (by decide) (by decide)]
        rfl
      · rw [databaseStep_frame _ _ _ _ h5 "legislation_id" (by decide),
          citingStep_frame _ _ _ _ h3 "legislation_id" (by decide),
          citedStep_frame _ _ _ _ h2 "legislation_id" (by decide),
          decisionStep_frame _ _ _ _ h1 "legislation_id" (by decide)
            (by decide) (by decide) (by decide) (by decide) (by decide)]
        rfl
      · rw [databaseStep_frame _ _ _ _ h5 "title" (by decide),
          citingStep_frame _ _ _ _ h3 "title" (by decide),
          citedStep_frame _ _ _ _ h2 "title" (by decide),
          decisionStep_frame _ _ _ _ h1 "title" (by decide) (by decide)
            (by decide) (by decide) (by decide) (by decide)]
        rfl
      · rw [databaseStep_frame _ _ _ _ h5 "type" (by decide),
          citingStep_frame _ _ _ _ h3 "type" (by decide),
          citedStep_frame _ _ _ _ h2 "type" (by decide),
          decisionStep_frame _ _ _ _ h1 "type" (by decide) (by decide)
            (by decide) (by decide) (by decide) (by decide)]
        rfl
      · rw [databaseStep_frame _ _ _ _ h5 "citation" (by decide),
          citingStep_frame _ _ _ _ h3 "citation" (by decide),
          citedStep_frame _ _ _ _ h2 "citation" (by decide),
          decisionStep_frame _ _ _ _ h1 "citation" (by decide) (by decide)
            (by decide) (by decide) (by decide) (by decide)]
        rfl
    · simp [hf] at htrue
  · intro hf
    rcases databaseStep_ok_elim _ _ _ _ h5 with ⟨-, rfl⟩ | ⟨htrue, -⟩
    · constructor
      · rw [r4, r3, r2, r1]
        simp [List.mem_append, mem_ite_single]
      · rw [legislationStep_frame _ _ _ _ h4 "database" (by decide)
            (by decide) (by decide) (by decide) (by decide),
          citingStep_frame _ _ _ _ h3 "database" (by decide),
          citedStep_frame _ _ _ _ h2 "database" (by decide),
          decisionStep_frame _ _ _ _ h1 "database" (by decide) (by decide)
            (by decide) (by decide) (by decide) (by decide)]
        rfl
    · simp [hf] at htrue
  · intro hf
    obtain ⟨cm, hb, v1, v2, v3, v4, v5, v6⟩ :=
      decisionStep_values svc _ _ (hf ▸ h1)
    refine ⟨cm, hb, ?_, ?_, ?_, ?_, ?_, ?_⟩
    · rw [databaseStep_frame _ _ _ _ h5 "short_url" (by decide),
        legislationStep_frame _ _ _ _ h4 "short_url" (by decide) (by decide)
          (by decide) (by decide) (by decide),
        citingStep_frame _ _ _ _ h3 "short_url" (by decide),
        citedStep_frame _ _ _ _ h2 "short_url" (by decide)]
      exact v1
    · rw [databaseStep_frame _ _ _ _ h5 "language" (by decide),
        legislationStep_frame _ _ _ _ h4 "language" (by decide) (by decide)
          (by decide) (by decide) (by decide),
        citingStep_frame _ _ _ _ h3 "language" (by decide),
        citedStep_frame _ _ _ _ h2 "language" (by decide)]
      exact v2
    · rw [databaseStep_frame _ _ _ _ h5 "docket_number" (by decide),
        legislationStep_frame _ _ _ _ h4 "docket_number" (by decide)
          (by decide) (by decide) (by decide) (by decide),
        citingStep_frame _ _ _ _ h3 "docket_number" (by decide),
        citedStep_frame _ _ _ _ h2 "docket_number" (by decide)]
      exact v3
    · rw [databaseStep_frame _ _ _ _ h5 "decision_date" (by decide),
        legislationStep_frame _ _ _ _ h4 "decision_date" (by decide)
          (by decide) (by decide) (by decide) (by decide),
        citingStep_frame _ _ _ _ h3 "decision_date" (by decide),
        citedStep_frame _ _ _ _ h2 "decision_date" (by decide)]
      exact v4
    · rw [databaseStep_frame _ _ _ _ h5 "keywords" (by decide),
        legislationStep_frame _ _ _ _ h4 "keywords" (by decide) (by decide)
          (by decide) (by decide) (by decide),
        citingStep_frame _ _ _ _ h3 "keywords" (by decide),
        citedStep_frame _ _ _ _ h2 "keywords" (by decide)]
      exact v5
    · rw [databaseStep_frame _ _ _ _ h5 "categories" (by decide),
        legislationStep_frame _ _ _ _ h4 "categories" (by decide) (by decide)
          (by decide) (by decide) (by decide),
        citingStep_frame _ _ _ _ h3 "categories" (by decide),
        citedStep_frame _ _ _ _ h2 "categories" (by decide)]
      exact v6
  · intro hf
    obtain ⟨j, hb, v⟩ := citedStep_values svc _ _ (hf ▸ h2)
    refine ⟨j, hb, ?_⟩
    rw [databaseStep_frame _ _ _ _ h5 "cited_cases" (by decide),
      legislationStep_frame _ _ _ _ h4 "cited_cases" (by decide) (by decide)
        (by decide) (by decide) (by decide),
      citingStep_frame _ _ _ _ h3 "cited_cases" (by decide)]
    exact v
  · intro hf
    obtain ⟨j, hb, v⟩ := citingStep_values svc _ _ (hf ▸ h3)
    refine ⟨j, hb, ?_⟩
    rw [databaseStep_frame _ _ _ _ h5 "citing_cases" (by decide),
      legislationStep_frame _ _ _ _ h4 "citing_cases" (by decide) (by decide)
        (by decide) (by decide) (by decide)]
    exact v
  · intro hf
    obtain ⟨lm, hb, v1, v2, v3, v4, v5⟩ :=
      legislationStep_values svc _ _ (hf ▸ h4)
    refine ⟨lm, hb, ?_, ?_, ?_, ?_, ?_⟩
    · rw [databaseStep_frame _ _ _ _ h5 "database_id" (by decide)]
      exact v1
    · rw [databaseStep_frame _ _ _ _ h5 "legislation_id" (by decide)]
      exact v2
    · rw [databaseStep_frame _ _ _ _ h5 "title" (by decide)]
      exact v3
    · rw [databaseStep_frame _ _ _ _ h5 "type" (by decide)]
      exact v4
    · rw [databaseStep_frame _ _ _ _ h5 "citation" (by decide)]
      exact v5
  · intro hf
    obtain ⟨j, hb, v⟩ := databaseStep_values svc _ _ (hf ▸ h5)
    exact ⟨j, hb, v⟩

/-- C4 witness: requesting only the decision facet issues only the
case-browse request; the cited-cases key is absent and the six decision keys
hold the response's values. -/
theorem canlii_api_call_facet_independence_witness :
    canlii_api_call (some "KEY") "" sampleFlags sampleService =
      CallOutcome.ok sampleCallState ∧
    (Endpoint.citedCases ∉ sampleCallState.reqs ∧
      dictGet sampleCallState.dict "cited_cases" = none) ∧
    (∃ cm, sampleService.decisionResp.body = some cm ∧
      dictGet sampleCallState.dict "short_url" = (jLookup cm "url").map Val.s ∧
      dictGet sampleCallState.dict "language" =
        (jLookup cm "language").map Val.s ∧
      dictGet sampleCallState.dict "docket_number" =
        (jLookup cm "docketNumber").map Val.s ∧
      dictGet sampleCallState.dict "decision_date" =
        (jLookup cm "decisionDate").map Val.s ∧
      dictGet sampleCallState.dict "keywords" =
        (jLookup cm "keywords").map Val.s ∧
      dictGet sampleCallState.dict "categories" =
        (jLookup cm "topics").map Val.s) :=
  ⟨by decide,
   (canlii_api_call_facet_independence (some "KEY") "" sampleFlags
      sampleService sampleCallState (by decide)).2.1 rfl,
   (canlii_api_call_facet_independence (some "KEY") "" sampleFlags
      sampleService sampleCallState (by decide)).2.2.2.2.2.1 rfl⟩

/-- C6 counterexample: with only the cited-cases facet requested, the remote
service answers with a non-success status 404 whose body is well-formed JSON
(an error object); the claim says the aggregation must fault with no record
returned, but the code never examines the status code: the call succeeds and
returns a unified record holding the error body verbatim. -/
theorem canlii_api_call_nonsuccess_counterexample :
    canlii_api_call (some "KEY") "" ⟨false, false, true, false, false⟩
      ⟨⟨200, some []⟩, ⟨404, some [("error", "NOT_FOUND")]⟩, ⟨200, some []⟩,
       ⟨200, some []⟩, ⟨200, some []⟩⟩ =
      CallOutcome.ok ⟨[Endpoint.citedCases],
        [("cited_cases", Val.j [("error", "NOT_FOUND")])]⟩ ∧
    successStatus_spec 404 = false := by
  decide

/-- C6 (amended): when any requested facet's response body is not well-formed
JSON, the `json.JSONDecodeError` propagates to the caller uncaught and no
unified record — not even a partial one — is returned for that call.  (A
non-success HTTP status alone does not abort the call: the status code is
never examined, and for the cited-cases, citing-cases and database facets a
well-formed error body is stored verbatim in the returned record.) -/
theorem canlii_api_call_malformed_json_faults (envKey : Option String)
    (console : String) (flags : ApiFlags) (svc : Service)
    (hbad : (flags.decision_metadata = true ∧ svc.decisionResp.body = none) ∨
      (flags.cases_cited = true ∧ svc.citedResp.body = none) ∨
      (flags.cases_citing = true ∧ svc.citingResp.body = none) ∨
      (flags.legislation_metadata = true ∧
        svc.legislationResp.body = none) ∨
      (flags.canlii_database = true ∧ svc.databaseResp.body = none)) :
    ∀ st, canlii_api_call envKey console flags svc ≠ CallOutcome.ok st := by
  intro st h
  obtain ⟨st1, st2, st3, st4, h1, h2, h3, h4, h5⟩ :=
    aggregateFacets_ok_elim flags svc st
      (canlii_api_call_ok_elim envKey console flags svc st h)
  rcases hbad with ⟨hf, hbody⟩ | ⟨hf, hbody⟩ | ⟨hf, hbody⟩ | ⟨hf, hbody⟩ |
    ⟨hf, hbody⟩
  · rcases decisionStep_ok_elim _ _ _ _ (hf ▸ h1) with ⟨hff, -⟩ |
      ⟨-, cm, u, lg, dn, dd, kw, tp, hb, -, -, -, -, -, -, -⟩
    · simp at hff
    · rw [hbody] at hb
      exact Option.noConfusion hb
  · rcases citedStep_ok_elim _ _ _ _ (hf ▸ h2) with ⟨hff, -⟩ | ⟨-, j, hb, -⟩
    · simp at hff
    · rw [hbody] at hb
      exact Option.noConfusion hb
  · rcases citingStep_ok_elim _ _ _ _ (hf ▸ h3) with ⟨hff, -⟩ | ⟨-, j, hb, -⟩
    · simp at hff
    · rw [hbody] at hb
      exact Option.noConfusion hb
  · rcases legislationStep_ok_elim _ _ _ _ (hf ▸ h4) with ⟨hff, -⟩ |
      ⟨-, lm, di, li, ti, ty, ci, hb, -, -, -, -, -, -⟩
    · simp at hff
    · rw [hbody] at hb
      exact Option.noConfusion hb
  · rcases databaseStep_ok_elim _ _ _ _ (hf ▸ h5) with ⟨hff, -⟩ |
      ⟨-, j, hb, -⟩
    · simp at hff
    · rw [hbody] at hb
      exact Option.noConfusion hb

/-- C6 witness: a malformed cited-cases body makes the call return no
record. -/
theorem canlii_api_call_malformed_json_faults_witness :
    canlii_api_call (some "KEY") "" ⟨false, false, true, false, false⟩
      ⟨⟨200, some []⟩, ⟨200, none⟩, ⟨200, some []⟩, ⟨200, some []⟩,
       ⟨200, some []⟩⟩ ≠ CallOutcome.ok ⟨[], []⟩ :=
  canlii_api_call_malformed_json_faults (some "KEY") ""
    ⟨false, false, true, false, false⟩
    ⟨⟨200, some []⟩, ⟨200, none⟩, ⟨200, some []⟩, ⟨200, some []⟩,
     ⟨200, some []⟩⟩ (Or.inr (Or.inl ⟨rfl, rfl⟩)) ⟨[], []⟩

end LegalCitationParser
